import Mathlib

/-
Shallow embedding of the allocator in src/malloc.c.

The heap is modelled as a byte-addressed memory holding 64-bit words:
reading address a yields the word the program stores at a (the code only
ever reads and writes whole 64-bit words, at the header word, the two
intrusive link fields at offsets 8 and 16 from the header, and the footer
word).  Addresses are natural numbers; the null pointer is 0, and the
initial program break is a positive multiple of 8 so no block header can
be at address 0.  Machine arithmetic on uint64_t values wraps modulo
2^64, which the definitions make explicit where the source computes in
uint64_t; the result of the source function round is further truncated
to 32 bits because its C return type is unsigned int.  Memory obtained
from the operating system is zero-filled, as fresh sbrk pages are.

The operating system is an oracle: a list of booleans giving the results
of the successive heap-extension requests (true = granted).  A request
made after the list is exhausted is refused.
-/

namespace MallocModel

def U64 : Nat := 2 ^ 64

def U32 : Nat := 2 ^ 32

def mask64 (x : Nat) : Nat := x % U64

/-- Subtraction of uint64_t values (both arguments below 2^64), wrapping. -/
def sub64 (a b : Nat) : Nat := (a + U64 - b % U64) % U64

/-- Byte-addressed memory: the 64-bit word stored at each address. -/
abbrev Mem := Nat → Nat

def write (m : Mem) (a v : Nat) : Mem := fun x => if x = a then v else m x

/-- INIIAL_HEAP_SIZE from the source (the misspelling is the source's). -/
def INIIAL_HEAP_SIZE : Nat := 1024

def ALLOC_SIZE : Nat := 1024

def MINIMUM_ALLOC_SIZE : Nat := 16

/-- MINIMUM_BLOCK_SIZE = sizeof(uint64_t) + MINIMUM_ALLOC_SIZE + sizeof(struct block_footer_t). -/
def MINIMUM_BLOCK_SIZE : Nat := 8 + MINIMUM_ALLOC_SIZE + 8

/-- sizeof(struct block_header_t): a uint64_t size word plus the two
intrusive link pointers, 24 bytes on the 64-bit target. -/
def SIZEOF_BLOCK_HEADER : Nat := 24

/-- is_free: the low bit of the stored size word. -/
def is_free (m : Mem) (b : Nat) : Bool := (m b) &&& 1 == 1

/-- set_free: size |= 1. -/
def set_free (m : Mem) (b : Nat) : Mem := write m b ((m b) ||| 1)

/-- set_used: size &= -2 (the uint64_t value -2 is 2^64 - 2). -/
def set_used (m : Mem) (b : Nat) : Mem := write m b ((m b) &&& (U64 - 2))

/-- get_size: size & -2. -/
def get_size (m : Mem) (b : Nat) : Nat := (m b) &&& (U64 - 2)

/-- get_footer_from_header: (char*)header + get_size(header) + sizeof(uint64_t). -/
def get_footer_from_header (m : Mem) (b : Nat) : Nat := b + get_size m b + 8

/-- get_header_from_footer: (char*)footer - get_size(footer) - sizeof(uint64_t). -/
def get_header_from_footer (m : Mem) (f : Nat) : Nat := f - get_size m f - 8

/-- head_addr: data - sizeof(uint64_t). -/
def head_addr (p : Nat) : Nat := p - 8

/-- data_addr: (char*)block + sizeof(uint64_t). -/
def data_addr (b : Nat) : Nat := b + 8

/-- round: ((size + 7) & (-8)); the addition is uint64_t arithmetic, but
the C return type is unsigned int, so the value is truncated to 32 bits. -/
def round (size : Nat) : Nat := (((size + 7) % U64) &&& (U64 - 8)) % U32

/-- Global allocator state: the C globals together with the modelled
operating system (current program break and the oracle of future
heap-extension results). -/
structure AllocState where
  brk : Nat
  os : List Bool
  heap : Option Nat
  heap_end : Option Nat
  last : Nat
  first : Nat
  free_list : Nat
  mem : Mem

/-- Result of sbrk(amount): on success returns the previous break and
advances it; on refusal returns none (the C (void*)-1).  One oracle
entry is consumed per extension request. -/
def sbrkCall (s : AllocState) (amount : Nat) : AllocState × Option Nat :=
  match s.os with
  | [] => (s, none)
  | ok :: rest =>
    if ok then ({ s with os := rest, brk := s.brk + amount }, some s.brk)
    else ({ s with os := rest }, none)

/-- init: heap = sbrk(0); then request INIIAL_HEAP_SIZE; on refusal both
heap and heap_end are reset to the -1 sentinel (modelled as none). -/
def init (s : AllocState) : AllocState :=
  if s.heap = none then
    let base := s.brk
    let r := sbrkCall { s with heap := some base } INIIAL_HEAP_SIZE
    match r.2 with
    | none => { r.1 with heap := none, heap_end := none }
    | some _ => { r.1 with heap_end := some (base + INIIAL_HEAP_SIZE) }
  else s

/-- add_to_free_list: link the block at the head of the free list and
mark header and footer free, in the source's order of stores. -/
def add_to_free_list (s : AllocState) (b : Nat) : AllocState :=
  let m1 := write s.mem (b + 8) s.free_list
  let m2 := write m1 (b + 16) 0
  let m3 := if s.free_list ≠ 0 then write m2 (s.free_list + 16) b else m2
  let m4 := set_free m3 b
  let m5 := set_free m4 (get_footer_from_header m4 b)
  { s with mem := m5, free_list := b }

/-- remove_from_free_list: rewire the neighbours' links (each field is
re-read from memory exactly when the source reads it), advance the head
if needed, and mark header and footer used. -/
def remove_from_free_list (s : AllocState) (b : Nat) : AllocState :=
  let m0 := s.mem
  let m1 := if m0 (b + 8) ≠ 0 then write m0 (m0 (b + 8) + 16) (m0 (b + 16)) else m0
  let m2 := if m1 (b + 16) ≠ 0 then write m1 (m1 (b + 16) + 8) (m1 (b + 8)) else m1
  let fl := if b = s.free_list then m2 (b + 8) else s.free_list
  let m3 := set_used m2 b
  let m4 := set_used m3 (get_footer_from_header m3 b)
  { s with mem := m4, free_list := fl }

/-- next_available_block: the heap start if nothing was carved yet,
otherwise one full frame past the last carved block. -/
def next_available_block (s : AllocState) (h : Nat) : Nat :=
  if s.last = 0 then h else s.last + 8 + get_size s.mem s.last + 8

/-- The size actually used by Malloc: the uint64_t argument, clamped to
MINIMUM_ALLOC_SIZE from below and then passed through round. -/
def reqSize (size0 : Nat) : Nat :=
  let sz := size0 % U64
  round (if sz < MINIMUM_ALLOC_SIZE then MINIMUM_ALLOC_SIZE else sz)

/-- The free-list walk of Malloc: return the first block whose size fits
(first fit), some 0 when the walk reaches NULL without a hit, and none
when the given fuel is exhausted before the C loop would have stopped
(the C loop has no other exit, so none models non-termination). -/
def findFit (m : Mem) (b : Nat) (size : Nat) : Nat → Option Nat
  | 0 => none
  | fuel + 1 =>
    if b = 0 then some 0
    else if size ≤ get_size m b then some b
    else findFit m (m (b + 8)) size fuel

/-- The body of Malloc's free-list hit: optionally split the found block
(the source computes total_size with sizeof(struct block_header_t), i.e.
24, and size_needed with sizeof(uint64_t) + sizeof footer), then store
the requested size in the header and mark header and footer used. -/
def malloc_hit (s : AllocState) (b size : Nat) : AllocState × Nat :=
  let total_size := mask64 (get_size s.mem b + SIZEOF_BLOCK_HEADER + 8)
  let size_needed := mask64 (size + 8 + 8)
  let s1 :=
    if MINIMUM_BLOCK_SIZE ≤ sub64 total_size size_needed then
      let new_block := b + 8 + size + 8
      let m := write s.mem new_block (sub64 (sub64 (sub64 total_size size_needed) 8) 8)
      let t := add_to_free_list { s with mem := m } new_block
      let m2 := set_free t.mem new_block
      let m3 := set_free m2 (get_footer_from_header m2 new_block)
      { t with mem := m3 }
    else s
  let m4 := write s1.mem b size
  let m5 := set_used m4 b
  let m6 := set_used m5 (get_footer_from_header m5 b)
  ({ s1 with mem := m6 }, data_addr b)

/-- The growth loop of Malloc: while the required end address exceeds
heap_end, call Sbrk (heap_end += ALLOC_SIZE on success); stop with
failure on refusal.  Returns the remaining oracle, the break, the new
heap_end and whether the loop exited successfully. -/
def growLoop : List Bool → Nat → Nat → Nat → List Bool × Nat × Nat × Bool
  | os, brk, e, required =>
    if required ≤ e then (os, brk, e, true)
    else
      match os with
      | [] => ([], brk, e, false)
      | ok :: rest =>
        if ok then growLoop rest (brk + ALLOC_SIZE) (e + ALLOC_SIZE) required
        else (rest, brk, e, false)

/-- Malloc.  The fuel bounds the free-list walk only; none is returned
exactly when that walk fails to terminate within the fuel.  The returned
Nat is the payload pointer, 0 for the C NULL. -/
def Malloc (s0 : AllocState) (size0 : Nat) (fuel : Nat) : Option (AllocState × Nat) :=
  let s := if s0.heap = none then init s0 else s0
  if s.heap = none ∨ s.heap_end = none then some (s, 0)
  else
    let h := s.heap.getD 0
    let e := s.heap_end.getD 0
    let size := reqSize size0
    match findFit s.mem s.free_list size fuel with
    | none => none
    | some b =>
      if b = 0 then
        let nb := next_available_block s h
        let g := growLoop s.os s.brk e (nb + 8 + size + 8)
        let s1 := { s with os := g.1, brk := g.2.1, heap_end := some g.2.2.1 }
        if g.2.2.2 then
          let m1 := write s1.mem nb size
          let m2 := set_used m1 nb
          let m3 := set_used m2 (get_footer_from_header m2 nb)
          let first1 := if s1.first = 0 then nb else s1.first
          some ({ s1 with mem := m3, first := first1, last := nb }, data_addr nb)
        else some (s1, 0)
      else some (malloc_hit s b size)

/-- Free, with its four boundary-tag cases in the source's priority
order.  The argument is the payload pointer; 0 is the C NULL. -/
def Free (s : AllocState) (p : Nat) : AllocState :=
  if p = 0 then s
  else
    let b := head_addr p
    let prev_block := if b ≠ s.first then get_header_from_footer s.mem (b - 8) else 0
    let next_block := if b ≠ s.last then b + 8 + get_size s.mem b + 8 else 0
    if next_block ≠ 0 ∧ is_free s.mem next_block ∧ prev_block ≠ 0 ∧ is_free s.mem prev_block then
      let s1 := remove_from_free_list s next_block
      let s2 := remove_from_free_list s1 prev_block
      let last2 := if next_block = s2.last then prev_block else s2.last
      let total_size := mask64 (get_size s2.mem prev_block + get_size s2.mem b +
        get_size s2.mem next_block + 3 * 8 + 3 * 8)
      let usable_size := sub64 (sub64 total_size 8) 8
      let m1 := write s2.mem prev_block usable_size
      let m2 := set_free m1 prev_block
      let m3 := write m2 (get_footer_from_header m2 prev_block) usable_size
      let m4 := set_free m3 (get_footer_from_header m3 prev_block)
      add_to_free_list { s2 with mem := m4, last := last2 } prev_block
    else if prev_block ≠ 0 ∧ is_free s.mem prev_block then
      let s1 := remove_from_free_list s prev_block
      let last2 := if b = s1.last then prev_block else s1.last
      let total_size := mask64 (get_size s1.mem prev_block + get_size s1.mem b + 2 * 8 + 2 * 8)
      let usable_size := sub64 (sub64 total_size 8) 8
      let m1 := write s1.mem prev_block usable_size
      let m2 := set_free m1 prev_block
      let m3 := write m2 (get_footer_from_header m2 prev_block) usable_size
      let m4 := set_free m3 (get_footer_from_header m3 prev_block)
      add_to_free_list { s1 with mem := m4, last := last2 } prev_block
    else if next_block ≠ 0 ∧ is_free s.mem next_block then
      let s1 := remove_from_free_list s next_block
      let last2 := if next_block = s1.last then b else s1.last
      let total_size := mask64 (get_size s1.mem b + get_size s1.mem next_block + 2 * 8 + 2 * 8)
      let usable_size := sub64 (sub64 total_size 8) 8
      let m1 := write s1.mem b usable_size
      let m2 := set_free m1 b
      let m3 := write m2 (get_footer_from_header m2 b) usable_size
      let m4 := set_free m3 (get_footer_from_header m3 b)
      add_to_free_list { s1 with mem := m4, last := last2 } b
    else
      let m1 := set_free s.mem b
      let m2 := set_free m1 (get_footer_from_header m1 b)
      add_to_free_list { s with mem := m2 } b

/-- Memory as delivered by the operating system: zero-filled. -/
def initialMem : Mem := fun _ => 0

/-- A fresh process: nothing mapped yet, the program break at 4096 (any
positive 8-aligned address; sbrk-provided memory is zero-filled). -/
def mkS0 (os : List Bool) : AllocState :=
  { brk := 4096, os := os, heap := none, heap_end := none,
    last := 0, first := 0, free_list := 0, mem := initialMem }

/-- Run Malloc and keep the state; the default is never reached in the
concrete scenarios below (each is given enough fuel). -/
def runMalloc (s : AllocState) (n fuel : Nat) : AllocState × Nat :=
  (Malloc s n fuel).getD (s, 0)

/-- Scenario for C1: carve a 56-byte block, free it, then request 24. -/
def c1a : AllocState × Nat := runMalloc (mkS0 [true]) 56 1

def c1b : AllocState := Free c1a.1 c1a.2

def c1c : AllocState × Nat := runMalloc c1b 24 2

/-- Scenario for C2: carve a 40-byte block, free it, then request 16. -/
def c2a : AllocState × Nat := runMalloc (mkS0 [true]) 40 1

def c2b : AllocState := Free c2a.1 c2a.2

def c2c : AllocState × Nat := runMalloc c2b 16 2

/-- Scenario shared by C3, C9 and the C10 witness: the determinism
scenario at i = 2 on a fresh heap: allocate(16); release; allocate(16);
release. -/
def d16a : AllocState × Nat := runMalloc (mkS0 [true]) 16 1

def d16b : AllocState := Free d16a.1 d16a.2

def d16c : AllocState × Nat := runMalloc d16b 16 2

def d16d : AllocState := Free d16c.1 d16c.2

/-- Scenario for C4: a first allocation of 2^32 bytes, OS granting. -/
def c4a : AllocState × Nat := runMalloc (mkS0 [true]) (2 ^ 32) 1

/-- Scenario for C5 and C6: carve three adjacent 16-byte blocks A, B, C,
free A, free C, then release B, whose two heap neighbours both exist and
are both free. -/
def c5a : AllocState × Nat := runMalloc (mkS0 [true]) 16 1

def c5b : AllocState × Nat := runMalloc c5a.1 16 1

def c5c : AllocState × Nat := runMalloc c5b.1 16 1

def c5d : AllocState := Free c5c.1 4104

def c5e : AllocState := Free c5d 4168

def c5f : AllocState := Free c5e 4136

/-- Scenario for C7: the OS refuses the bootstrap extension, then would
grant a later request. -/
def c7r1 : AllocState × Nat := runMalloc (mkS0 [false, true]) 16 1

def c7r2 : AllocState × Nat := runMalloc c7r1.1 16 1

/-- Taken from the specification's words, for comparison with the code:
round_up_8, with no truncation. -/
def specRound8 (s : Nat) : Nat := ((s + 7) / 8) * 8

/-- Taken from the specification's words, for comparison with the code:
the promised usable size max(round_up_8(s), 16). -/
def specUsable (s : Nat) : Nat := max (specRound8 s) MINIMUM_ALLOC_SIZE

/-- C1: the claim says a split leaves a remainder whose usable size is
the original usable size minus the rounded request minus one
header+footer overhead (here 56 - 24 - 16 = 16), with the blocks still
tiling the heap.  In the code, splitting the freed 56-byte block at 4096
on a request of 24 carves the remainder at 4136 with size 32, not 16: its
frame ends at 4136 + 8 + 32 + 8 = 4184 although the original block ended
at 4096 + 8 + 56 + 8 = 4168, overrunning the block by 16 bytes. -/
theorem malloc_split_remainder_size_bug :
    c1c.2 = 4104 ∧ c1c.1.free_list = 4136 ∧ is_free c1c.1.mem 4136 = true ∧
    get_size c1c.1.mem 4136 = 32 ∧ get_size c1c.1.mem 4136 ≠ 56 - 24 - 16 ∧
    4136 + 8 + get_size c1c.1.mem 4136 + 8 = 4184 ∧ 4096 + 8 + 56 + 8 = 4168 := by decide

/-- C2: the claim says the split happens exactly when the leftover
capacity, total framed size (usable + 16) minus framed size needed
(request + 16), is at least MINIMUM_BLOCK_SIZE = 32, and that otherwise
the oversized block is kept as-is with its header size unshrunk.  For a
freed 40-byte block and a request of 16 the leftover is 24 < 32, so the
claim prescribes no split; the code, computing total_size with
sizeof(struct block_header_t) = 24, splits anyway: it shrinks the header
at 4096 to 16 and inserts a carved remainder at 4128 of size 24. -/
theorem malloc_split_threshold_bug :
    c2c.2 = 4104 ∧ get_size c2c.1.mem 4096 = 16 ∧ get_size c2c.1.mem 4096 ≠ 40 ∧
    c2c.1.free_list = 4128 ∧ is_free c2c.1.mem 4128 = true ∧
    get_size c2c.1.mem 4128 = 24 := by decide

/-- C3: the claim says a block handed to the caller by allocate is no
longer linked in the free list.  After allocate(16) is satisfied from
the free list (the sole entry, at 4096), the returned block is marked
used yet is still the head of the free list: the hit path of Malloc
never calls remove_from_free_list. -/
theorem malloc_leaves_block_in_free_list :
    d16c.2 = 4104 ∧ head_addr d16c.2 = 4096 ∧ is_free d16c.1.mem 4096 = false ∧
    d16c.1.free_list = 4096 := by decide

/-- C4: the claim says a successful allocate(s) for any unsigned 64-bit
s is backed by usable size max(round_up_8(s), 16).  For s = 2^32 the
source function round returns unsigned int, truncating the rounded value
to 32 bits: the request is rounded to 0 and the carved block at 4096 has
usable size 0, not 2^32. -/
theorem malloc_round_truncation_bug :
    c4a.2 = 4104 ∧ get_size c4a.1.mem 4096 = 0 ∧ specUsable (2 ^ 32) = 2 ^ 32 ∧
    get_size c4a.1.mem 4096 ≠ specUsable (2 ^ 32) := by decide

/-- C5: the claim says releasing a block whose two heap neighbours both
exist and are both free removes both neighbours from the free list,
retargets last to the left neighbour, and writes the three-way merged
size to the left neighbour.  In the scenario, before the release of B at
4128 both neighbours A (4096) and C (4160) are free and B is neither
first nor last; yet after Free, last is 4128 (B) rather than 4096 (A),
the left neighbour A is still free, unmerged (size 16, not the merged
80) and still linked in the free list (it is the successor of the head):
the left neighbour goes undetected because carved blocks never get their
size written into their footer, so the backward probe reads a stale
word. -/
theorem free_both_neighbors_merge_bug :
    c5e.first = 4096 ∧ c5e.last = 4160 ∧ is_free c5e.mem 4096 = true ∧
    is_free c5e.mem 4160 = true ∧ get_size c5e.mem 4128 = 16 ∧
    is_free c5e.mem 4128 = false ∧
    c5f.last = 4128 ∧ c5f.free_list = 4128 ∧ c5f.mem 4136 = 4096 ∧
    is_free c5f.mem 4096 = true ∧ get_size c5f.mem 4096 = 16 ∧
    get_size c5f.mem 4128 = 48 := by decide

/-- C6: the claim says that after any release of a validly allocated,
not-yet-released pointer no two heap-adjacent blocks are both free.
After releasing B at 4128 (valid, allocated, not yet released, with both
neighbours free), the walk from first finds the block at 4096 free, and
the immediately following block at 4096 + 8 + 16 + 8 = 4128 = last also
free: two adjacent free blocks. -/
theorem adjacent_free_blocks_after_free :
    c5f.first = 4096 ∧ is_free c5f.mem 4096 = true ∧
    4096 + 8 + get_size c5f.mem 4096 + 8 = 4128 ∧ is_free c5f.mem 4128 = true ∧
    c5f.last = 4128 := by decide

/-- C7, the claim as stated is refuted: after the OS refuses the
bootstrap extension the first allocate fails and the heap is marked
unusable, but a second allocate does not fail regardless of later OS
behaviour: init is re-entered (heap is again the -1 sentinel) and the
allocation succeeds once the OS grants the retry. -/
theorem malloc_retries_bootstrap_counterexample :
    c7r1.2 = 0 ∧ c7r1.1.heap = none ∧ c7r1.1.heap_end = none ∧
    c7r2.2 = 4104 ∧ c7r2.2 ≠ 0 := by decide

/-- C7, amended: if the OS refuses the heap-extension request made
during bootstrap, the heap is marked unusable and that allocate call
returns failure; the marking is not sticky, the next allocate retries
bootstrap (and succeeds if the OS then grants, per the counterexample
above), and every allocate made while the OS keeps refusing fails. -/
theorem malloc_fails_while_os_refuses (s : AllocState) (size fuel : Nat) (rest : List Bool)
    (hheap : s.heap = none) (hos : s.os = false :: rest) :
    (Malloc s size fuel).map (fun r => (r.2, r.1.heap, r.1.heap_end)) =
      some (0, none, none) := by
  simp [Malloc, init, sbrkCall, hheap, hos]

/-- Witness for the amended C7 theorem at a concrete fresh state whose
OS refuses the bootstrap request. -/
theorem malloc_fails_while_os_refuses_witness :
    (Malloc (mkS0 [false]) 7 3).map (fun r => (r.2, r.1.heap, r.1.heap_end)) =
      some (0, none, none) :=
  malloc_fails_while_os_refuses (mkS0 [false]) 7 3 [] rfl rfl

/-- C8: release of a null pointer is a no-op: Free returns the state
unchanged, touching no allocator state at all. -/
theorem free_null_is_noop (s : AllocState) : Free s 0 = s := rfl

/-- C9: the determinism scenario fails at i = 3.  On a fresh heap the
i = 2 round trip does return the same pointer twice (first two
conjuncts), but it leaves the free list's sole entry linked to itself
(the allocate never unlinked it and the release re-inserted it), so the
free-list walk of the next allocate, i = 3's allocate(24), never
terminates: for every fuel the model returns none, the C loop spins
forever, and no pointer p2 is ever produced. -/
theorem determinism_scenario_diverges :
    d16a.2 = 4104 ∧ d16c.2 = 4104 ∧ ∀ fuel, Malloc d16d 24 fuel = none := by
  refine ⟨by decide, by decide, ?_⟩
  intro fuel
  induction fuel with
  | zero => rfl
  | succ n ih => exact (rfl : Malloc d16d 24 (n + 1) = Malloc d16d 24 n).trans ih

/-- Helper for C10: the free-list hit body changes only the memory and
the free-list head, never the heap markers or bounds, and returns the
payload pointer of the found block. -/
theorem malloc_hit_frame (s : AllocState) (b sz : Nat) :
    (malloc_hit s b sz).1.first = s.first ∧ (malloc_hit s b sz).1.last = s.last ∧
    (malloc_hit s b sz).1.heap = s.heap ∧ (malloc_hit s b sz).1.heap_end = s.heap_end ∧
    (malloc_hit s b sz).2 = b + 8 := by
  simp only [malloc_hit, data_addr]
  split <;> simp [add_to_free_list]

/-- C10: a free-list hit leaves first, last and the heap bounds
untouched (first conjunct), while the fresh-carve path assigns last to
the carved block always and first only when no block was carved before
(second conjunct). -/
theorem malloc_marker_discipline (s : AllocState) (h e size fuel b : Nat)
    (hh : s.heap = some h) (he : s.heap_end = some e) :
    (b ≠ 0 → findFit s.mem s.free_list (reqSize size) fuel = some b →
      (Malloc s size fuel).map (fun r => (r.1.first, r.1.last, r.1.heap, r.1.heap_end)) =
        some (s.first, s.last, s.heap, s.heap_end))
  ∧ (findFit s.mem s.free_list (reqSize size) fuel = some 0 →
      ∀ g1 g2 g3, growLoop s.os s.brk e (next_available_block s h + 8 + reqSize size + 8) =
          (g1, g2, g3, true) →
      (Malloc s size fuel).map (fun r => (r.1.first, r.1.last, r.2)) =
        some ((if s.first = 0 then next_available_block s h else s.first),
              next_available_block s h, next_available_block s h + 8)) := by
  have h0 : ¬ (s.heap = none ∨ s.heap_end = none) := by rw [hh, he]; simp
  have hs : (if s.heap = none then init s else s) = s := by rw [hh]; simp
  constructor
  · intro hb hfind
    obtain ⟨f1, f2, f3, f4, f5⟩ := malloc_hit_frame s b (reqSize size)
    simp only [Malloc]
    rw [hs, if_neg h0, hfind]
    simp [hb, f1, f2, f3, f4]
  · intro hfind g1 g2 g3 hgrow
    simp only [Malloc]
    rw [hs, if_neg h0, hfind]
    simp only [hh, he, Option.getD_some]
    rw [hgrow]
    simp [data_addr]

/-- Witness for C10 at concrete states: a hit on the sole free-list
entry of d16b, and a carve from the state after the first allocation. -/
theorem malloc_marker_discipline_witness :
    ((Malloc d16b 16 1).map (fun r => (r.1.first, r.1.last, r.1.heap, r.1.heap_end)) =
       some (4096, 4096, some 4096, some 5120))
  ∧ ((Malloc d16a.1 24 1).map (fun r => (r.1.first, r.1.last, r.2)) =
       some (4096, 4128, 4136)) := by
  constructor
  · exact ((malloc_marker_discipline d16b 4096 5120 16 1 4096 (by decide) (by decide)).1
      (by decide) (by decide)).trans (by decide)
  · exact ((malloc_marker_discipline d16a.1 4096 5120 24 1 0 (by decide) (by decide)).2
      (by decide) [] 5120 5120 (by decide)).trans (by decide)

end MallocModel
